import Mathlib

set_option linter.unusedVariables false

/-!
Verification development for the KILO chat backend (`src/kilo/main.py`).

The Python source is shallowly embedded: the pure decision logic
(intent tagging, lead-capture dispatch, priority gating) is translated
function-for-function, and the effectful collaborators (the OpenAI
completion call, the Postgres queries) are made explicit parameters:
a call that may raise is modelled as an `Except String α` input, and a
database insert is modelled by returning the list of records written.
-/

namespace Kilo

/-- Python's substring membership `needle in hay`, on lists of characters:
true iff `needle` is a contiguous run of `hay`. -/
def containsSub : List Char → List Char → Bool
  | needle, [] => needle.isPrefixOf []
  | needle, c :: rest => needle.isPrefixOf (c :: rest) || containsSub needle rest

/-- Python's `needle in hay` on strings. -/
def strContains (needle hay : String) : Bool :=
  containsSub needle.data hay.data

/-- Python's `message.lower()`: lower-case every character (embedded as a
map over the string's characters so that it evaluates by kernel reduction). -/
def strLower (s : String) : String :=
  ⟨s.data.map Char.toLower⟩

/-- A tagged action emitted by `detect_intent_and_actions`: the dicts
`{"type": ..., "priority": ..., "reason": ...}` of the source. -/
structure IntentAction where
  type : String
  priority : String
  reason : String
deriving DecidableEq, Repr

/-- Keyword family of the B2B services branch (main.py line 145). -/
def b2bKeywords : List String :=
  ["website", "automation", "business", "bulk", "team", "company"]

/-- Keyword family of the VIP custom work branch (main.py line 153). -/
def vipKeywords : List String :=
  ["custom", "one-off", "unique", "embroidery", "design"]

/-- Keyword family of the purchase branch (main.py line 161). -/
def purchaseKeywords : List String :=
  ["buy", "purchase", "order", "cart", "checkout"]

/-- The action dict appended by the B2B branch. -/
def b2bLeadAction : IntentAction :=
  { type := "capture_b2b_lead", priority := "high",
    reason := "B2B services inquiry detected" }

/-- The action dict appended by the VIP custom work branch. -/
def vipLeadAction : IntentAction :=
  { type := "capture_vip_lead", priority := "high",
    reason := "VIP custom work inquiry detected" }

/-- The action dict appended by the purchase branch. -/
def draftOrderAction : IntentAction :=
  { type := "create_draft_order", priority := "medium",
    reason := "Purchase intent detected" }

/-- The action dict appended by the engagement branch. -/
def engagedAction : IntentAction :=
  { type := "mark_engaged_customer", priority := "low",
    reason := "High engagement detected" }

/-- Condition of the B2B branch (main.py line 145):
`any(word in msg_lower for word in [...])`. -/
def b2bHit (msg_lower : String) : Bool :=
  b2bKeywords.any fun w => strContains w msg_lower

/-- Condition of the VIP custom work branch (main.py line 153). -/
def vipHit (msg_lower : String) : Bool :=
  vipKeywords.any fun w => strContains w msg_lower

/-- Condition of the purchase branch (main.py line 161). -/
def purchaseHit (msg_lower : String) : Bool :=
  purchaseKeywords.any fun w => strContains w msg_lower

/-- Condition of the engagement branch (main.py line 169):
`len(message) > 100 or '?' in message`, on the raw message. -/
def engagedHit (message : String) : Bool :=
  decide (message.length > 100) || strContains "?" message

/-- Embedding of `KILOAgent.detect_intent_and_actions` (main.py lines 139-176):
four independent checks against `msg_lower = message.lower()`
(the engagement check uses the raw `message`), each appending one
fixed action dict to `actions`. The `response` parameter is taken by
the source but unused by the matching logic. -/
def detect_intent_and_actions (message response : String) : List IntentAction :=
  let msg_lower := strLower message
  (if b2bHit msg_lower then [b2bLeadAction] else []) ++
  (if vipHit msg_lower then [vipLeadAction] else []) ++
  (if purchaseHit msg_lower then [draftOrderAction] else []) ++
  (if engagedHit message then [engagedAction] else [])

/-- The fixed in-character fallback response of `generate_response`
(main.py line 134). -/
def fallbackResponse : String :=
  "Having a quick technical moment - can you try that again? I'm here to help with anything Tahoe Enterprise related!"

/-- Result dict of `KILOAgent.generate_response`: the `response` and
`actions` keys, and the `error` key that is present exactly on the
fallback path. The success dict's `agent`/`timestamp` keys are not
modelled: no claim inspects them and the timestamp is wall-clock. -/
structure GenResult where
  response : String
  actions : List IntentAction
  error : Option String
deriving DecidableEq, Repr

/-- Embedding of `KILOAgent.generate_response` (main.py lines 107-137). The OpenAI
call is made explicit as the `providerResult` parameter: `Except.ok text`
when the provider returns `text`, `Except.error e` when it raises an
exception rendered as the string `e`. The `try` block returns the
response text and the detected actions with no `error` key; the bare
`except` returns the fixed fallback text, an empty action list, and
`str(e)`. -/
def generate_response (providerResult : Except String String) (message : String) :
    GenResult :=
  match providerResult with
  | Except.ok ai_response =>
      { response := ai_response,
        actions := detect_intent_and_actions message ai_response,
        error := none }
  | Except.error e =>
      { response := fallbackResponse, actions := [], error := some e }

/-- The customer data handed to the Action Executor: the `email`, `name`
and `message` keys of the dict built at main.py lines 251-255
(`dict.get` on a possibly-missing key yields `Option`; `message`
defaults to the empty string). -/
structure CustomerData where
  email : Option String
  name : Option String
  message : String
deriving DecidableEq, Repr

/-- A row of the `vip_leads` table as inserted by `capture_lead`
(main.py lines 193-206). -/
structure LeadRecord where
  store_id : Nat
  email : String
  name : Option String
  lead_type : String
  intent_score : Nat
  chat_context : String
  consent_email : Bool
deriving DecidableEq, Repr

/-- A result dict returned by the Action Executor: a `status` key and the
optional `lead_id` key. -/
structure ActionResult where
  status : String
  lead_id : Option Nat
deriving DecidableEq, Repr

/-- Embedding of `KILOAgent.capture_lead` (main.py lines 191-209).
Python's `if email:` is falsy for a missing key (`None`) and for the
empty string; only then is no insert attempted and `email_required`
returned. On the truthy path the unguarded `db.execute_query` call is
the `dbInsert` parameter: `Except.error e` when it raises (nothing
committed), `Except.ok rowcount` when the INSERT commits —
`execute_query` returns `cursor.rowcount` for non-SELECT queries
(main.py lines 47-50), an int, so line 207's
`result[0][0] if result else None` takes the falsy branch only when
`rowcount = 0` (no row affected) and otherwise subscripts the int and
raises `TypeError` after the row was committed. The first component is
the returned dict or the escaping exception; the second is the list of
rows committed. -/
def capture_lead (store_id : Nat) (dbInsert : Except String Nat)
    (customer_data : CustomerData) (lead_type : String) :
    Except String ActionResult × List LeadRecord :=
  match customer_data.email with
  | some email =>
      if email = "" then
        (Except.ok { status := "email_required", lead_id := none }, [])
      else
        match dbInsert with
        | Except.error e => (Except.error e, [])
        | Except.ok rowcount =>
            if rowcount = 0 then
              (Except.ok { status := "lead_captured", lead_id := none }, [])
            else
              (Except.error "TypeError: 'int' object is not subscriptable",
               [{ store_id := store_id, email := email, name := customer_data.name,
                  lead_type := lead_type, intent_score := 85,
                  chat_context := customer_data.message, consent_email := true }])
  | none => (Except.ok { status := "email_required", lead_id := none }, [])

/-- Modelled from the spec: `KILOAgent.create_draft_order` is called at
main.py line 187 but is not defined anywhere under src. The spec treats
the draft-order placeholder as an external collaborator call, so it is
modelled as an abstract function from the customer data to a result
dict. -/
def CreateDraftOrder : Type :=
  CustomerData → ActionResult

/-- Embedding of `KILOAgent.execute_action` (main.py lines 178-189): dispatch on
`action["type"]`; unrecognized types are a no-op returning
`{"status": "no_action_taken"}`. A `capture_lead` call may raise (see
`capture_lead`), which escapes this method unguarded. -/
def execute_action (store_id : Nat) (dbInsert : Except String Nat)
    (create_draft_order : CreateDraftOrder)
    (action : IntentAction) (customer_data : CustomerData) :
    Except String ActionResult × List LeadRecord :=
  if action.type = "capture_b2b_lead" then
    capture_lead store_id dbInsert customer_data "b2b_bulk"
  else if action.type = "capture_vip_lead" then
    capture_lead store_id dbInsert customer_data "vip_custom"
  else if action.type = "create_draft_order" then
    (Except.ok (create_draft_order customer_data), [])
  else
    (Except.ok { status := "no_action_taken", lead_id := none }, [])

/-- A `kb_documents` row `(doc_type, title, content)` as selected at
main.py lines 63-66. -/
structure KnowledgeDoc where
  doc_type : String
  title : String
  content : String
deriving DecidableEq, Repr

/-- Embedding of `KILOAgent.load_store_context` (main.py lines 61-72). The database
query is the `dbDocs` parameter: `Except.ok rows` when it returns rows,
`Except.error e` when it raises. The body has no exception handler, so a
raising query propagates out of the constructor; on success the context
string joins one `[doc_type] title: content` line per document. -/
def load_store_context (dbDocs : Except String (List KnowledgeDoc)) :
    Except String String :=
  match dbDocs with
  | Except.error e => Except.error e
  | Except.ok knowledge =>
      Except.ok (String.intercalate "\n"
        (knowledge.map fun doc =>
          "[" ++ doc.doc_type ++ "] " ++ doc.title ++ ": " ++ doc.content))

/-- The priority gate of the chat endpoint (main.py lines 249-250): the
sub-list of actions whose `priority` is in `["high", "medium"]` — exactly
the ones the loop passes to `execute_action`. -/
def executedActions (actions : List IntentAction) : List IntentAction :=
  actions.filter fun a => a.priority == "high" || a.priority == "medium"

/-- The JSON payload returned by `chat_with_kilo` on success
(main.py lines 258-265). -/
structure ChatResponse where
  success : Bool
  response : String
  actions : List IntentAction
  action_results : List ActionResult
  session_id : String
  agent : String
deriving DecidableEq, Repr

/-- Outcome of one request to the chat route: the success payload, the
400 response for a missing message (main.py line 232), or an unhandled
exception escaping the handler. -/
inductive EndpointOutcome where
  | ok : ChatResponse → EndpointOutcome
  | badRequest : String → EndpointOutcome
  | serverError : String → EndpointOutcome
deriving DecidableEq, Repr

/-- The response text the caller receives: `some` text on the success
path, `none` when the endpoint answers with an error. -/
def EndpointOutcome.responseText : EndpointOutcome → Option String
  | EndpointOutcome.ok r => some r.response
  | EndpointOutcome.badRequest _ => none
  | EndpointOutcome.serverError _ => none

/-- The action-execution loop of the chat route (main.py lines 248-256),
on the gated action list: each action is passed to `execute_action` in
order and its result appended to `action_results`; a call that raises
aborts the loop (and with it the handler), while the rows committed up
to the abort remain written. -/
def runActions (store_id : Nat) (dbInsert : Except String Nat)
    (create_draft_order : CreateDraftOrder) (customer_data : CustomerData) :
    List IntentAction → Except String (List ActionResult) × List LeadRecord
  | [] => (Except.ok [], [])
  | action :: rest =>
      match execute_action store_id dbInsert create_draft_order action customer_data with
      | (Except.error e, ws) => (Except.error e, ws)
      | (Except.ok r, ws) =>
          match runActions store_id dbInsert create_draft_order customer_data rest with
          | (Except.error e, ws2) => (Except.error e, ws ++ ws2)
          | (Except.ok rs, ws2) => (Except.ok (r :: rs), ws ++ ws2)

/-- Embedding of the `chat_with_kilo` route (main.py lines 222-265), with the effectful
collaborators explicit: `dbDocs` is the knowledge-base query made by the
`KILOAgent` constructor, `providerResult` the OpenAI call, `saveResult`
the `chat_sessions` insert (raising when `Except.error`), `dbInsert` the
`vip_leads` insert of a lead capture (see `capture_lead`), and
`create_draft_order` the missing collaborator. Neither the
`chat_sessions` insert nor the action-execution loop is guarded by a
handler, so a raising write — or the line-207 `TypeError` of a
successful lead insert — escapes the handler (`serverError`). The
pair's second component collects the `vip_leads` rows committed. -/
def chat_with_kilo (store_id : Nat)
    (dbDocs : Except String (List KnowledgeDoc))
    (providerResult : Except String String)
    (saveResult : Except String Nat)
    (dbInsert : Except String Nat)
    (create_draft_order : CreateDraftOrder)
    (message session_id : String)
    (customer : CustomerData) :
    EndpointOutcome × List LeadRecord :=
  if message = "" then (EndpointOutcome.badRequest "No message provided", [])
  else
    match load_store_context dbDocs with
    | Except.error e => (EndpointOutcome.serverError e, [])
    | Except.ok _context =>
      let result := generate_response providerResult message
      match saveResult with
      | Except.error e => (EndpointOutcome.serverError e, [])
      | Except.ok _ =>
        let customer_data : CustomerData :=
          { email := customer.email, name := customer.name, message := message }
        match runActions store_id dbInsert create_draft_order customer_data
            (executedActions result.actions) with
        | (Except.error e, ws) => (EndpointOutcome.serverError e, ws)
        | (Except.ok rs, ws) =>
            (EndpointOutcome.ok
              { success := true, response := result.response,
                actions := result.actions,
                action_results := rs,
                session_id := session_id, agent := "KILO" },
             ws)

/-- The four action dicts the tagger can emit, in the order the four
branches append them. -/
def canonicalActions : List IntentAction :=
  [b2bLeadAction, vipLeadAction, draftOrderAction, engagedAction]

/-- A concrete stand-in for the missing draft-order collaborator, used
only to instantiate theorems at concrete inputs. -/
def trivialCollab : CreateDraftOrder :=
  fun _ => { status := "draft_order_created", lead_id := none }

/-!
Helper lemmas shared by the claim theorems.
-/

/-- Membership in a conditional singleton list. -/
theorem mem_ite_singleton {α : Type} {c : Bool} {a x : α} :
    a ∈ (if c then [x] else []) ↔ c = true ∧ a = x := by
  cases c <;> simp

/-- A conditional singleton list is a sub-list of the singleton. -/
theorem ite_singleton_sublist {α : Type} {c : Bool} {x : α} :
    (if c then [x] else ([] : List α)).Sublist [x] := by
  cases c <;> simp

/-- Characterisation of the tagger's output: an action is emitted iff its
branch fired and it is that branch's fixed dict. -/
theorem mem_detect_iff (message response : String) (a : IntentAction) :
    a ∈ detect_intent_and_actions message response ↔
      (b2bHit (strLower message) = true ∧ a = b2bLeadAction) ∨
      (vipHit (strLower message) = true ∧ a = vipLeadAction) ∨
      (purchaseHit (strLower message) = true ∧ a = draftOrderAction) ∨
      (engagedHit message = true ∧ a = engagedAction) := by
  simp only [detect_intent_and_actions, List.mem_append, mem_ite_singleton]
  tauto

/-- In the canonical action list every action kind occurs at most once. -/
theorem countP_canonical_le_one (t : String) :
    canonicalActions.countP (fun a => a.type == t) ≤ 1 := by
  by_cases h1 : t = "capture_b2b_lead"
  · subst h1; decide
  by_cases h2 : t = "capture_vip_lead"
  · subst h2; decide
  by_cases h3 : t = "create_draft_order"
  · subst h3; decide
  by_cases h4 : t = "mark_engaged_customer"
  · subst h4; decide
  have e1 : (("capture_b2b_lead" : String) == t) = false :=
    beq_eq_false_iff_ne.mpr (Ne.symm h1)
  have e2 : (("capture_vip_lead" : String) == t) = false :=
    beq_eq_false_iff_ne.mpr (Ne.symm h2)
  have e3 : (("create_draft_order" : String) == t) = false :=
    beq_eq_false_iff_ne.mpr (Ne.symm h3)
  have e4 : (("mark_engaged_customer" : String) == t) = false :=
    beq_eq_false_iff_ne.mpr (Ne.symm h4)
  simp [canonicalActions, List.countP_cons, b2bLeadAction, vipLeadAction,
    draftOrderAction, engagedAction, e1, e2, e3, e4]

/-- Every `vip_leads` row written by `capture_lead` has a non-empty
email. -/
theorem capture_lead_writes_nonempty_email (store_id : Nat)
    (dbInsert : Except String Nat) (cd : CustomerData) (lead_type : String)
    (r : LeadRecord) (hmem : r ∈ (capture_lead store_id dbInsert cd lead_type).2) :
    r.email ≠ "" := by
  rcases hcd : cd.email with _ | email
  · simp [capture_lead, hcd] at hmem
  · by_cases he : email = ""
    · simp [capture_lead, hcd, he] at hmem
    · rcases hdb : dbInsert with e | rowcount
      · simp [capture_lead, hcd, he, hdb] at hmem
      · by_cases hrc : rowcount = 0
        · simp [capture_lead, hcd, he, hdb, hrc] at hmem
        · simp [capture_lead, hcd, he, hdb, hrc] at hmem
          subst hmem
          simpa using he

/-!
Claim theorems.
-/

/-- C1: for every input message, on any provider error `generate_response`
does not propagate the exception: the result's response text is the fixed
in-character fallback string, the action list is empty, and the
underlying error detail is carried in the separate `error` field
alongside the result (a field that is `none` exactly on the answered
path, so callers can distinguish "answered" from "fell back"). -/
theorem C1_provider_error_returns_fallback (message e : String) :
    (generate_response (Except.error e) message).response = fallbackResponse ∧
    (generate_response (Except.error e) message).error = some e ∧
    (generate_response (Except.error e) message).actions = [] ∧
    ∀ text, (generate_response (Except.ok text) message).error = none :=
  ⟨rfl, rfl, rfl, fun _ => rfl⟩

/-- C2: a lead-capture call whose customer data has an absent or empty
email returns the `email_required` result and performs no write; and no
path of the Action Executor ever writes a `vip_leads` row with an empty
email. -/
theorem C2_no_lead_without_email (store_id : Nat) (dbInsert : Except String Nat)
    (customer_data : CustomerData) (lead_type : String)
    (h : customer_data.email = none ∨ customer_data.email = some "") :
    capture_lead store_id dbInsert customer_data lead_type =
      (Except.ok { status := "email_required", lead_id := none }, []) ∧
    ∀ (collab : CreateDraftOrder) (action : IntentAction) (cd : CustomerData)
      (r : LeadRecord),
      r ∈ (execute_action store_id dbInsert collab action cd).2 → r.email ≠ "" := by
  constructor
  · rcases h with h | h <;> simp [capture_lead, h]
  · intro collab action cd r hr
    unfold execute_action at hr
    split at hr
    · exact capture_lead_writes_nonempty_email store_id dbInsert cd "b2b_bulk" r hr
    · split at hr
      · exact capture_lead_writes_nonempty_email store_id dbInsert cd "vip_custom" r hr
      · split at hr
        · simp at hr
        · simp at hr

/-- Witness for C2: a business-lead capture with no email field reports
`email_required` and writes nothing. -/
theorem C2_no_lead_without_email_witness :
    capture_lead 1 (Except.ok 1) { email := none, name := none, message := "hi" }
        "b2b_bulk" =
      (Except.ok { status := "email_required", lead_id := none }, []) :=
  (C2_no_lead_without_email 1 (Except.ok 1)
    { email := none, name := none, message := "hi" } "b2b_bulk" (Or.inl rfl)).1

/-- C3: if the case-folded message contains any of the keywords
"website", "automation", "business", "bulk", "team" or "company", the
tagger's output contains the business-lead action, of type
`capture_b2b_lead` and priority `high`. -/
theorem C3_b2b_keyword_emits_business_lead (message response : String)
    (h : b2bHit (strLower message) = true) :
    b2bLeadAction ∈ detect_intent_and_actions message response ∧
    b2bLeadAction.type = "capture_b2b_lead" ∧
    b2bLeadAction.priority = "high" :=
  ⟨(mem_detect_iff message response b2bLeadAction).mpr (Or.inl ⟨h, rfl⟩), rfl, rfl⟩

/-- Witness for C3 at the message "Can you build my WEBSITE". -/
theorem C3_b2b_keyword_emits_business_lead_witness :
    b2bLeadAction ∈ detect_intent_and_actions "Can you build my WEBSITE" "" ∧
    b2bLeadAction.type = "capture_b2b_lead" ∧
    b2bLeadAction.priority = "high" :=
  C3_b2b_keyword_emits_business_lead "Can you build my WEBSITE" "" (by decide)

/-- C4: the engagement-flag action (type `mark_engaged_customer`,
priority `low`) is in the tagger's output iff the message is longer than
100 characters or contains a question mark — regardless of which other
rules also match; in particular a message of length at most 100 without
a question mark never gets one. -/
theorem C4_engagement_flag_iff (message response : String) :
    (engagedAction ∈ detect_intent_and_actions message response ↔
      message.length > 100 ∨ strContains "?" message = true) ∧
    engagedAction.type = "mark_engaged_customer" ∧
    engagedAction.priority = "low" := by
  refine ⟨?_, rfl, rfl⟩
  rw [mem_detect_iff]
  constructor
  · rintro (⟨_, h⟩ | ⟨_, h⟩ | ⟨_, h⟩ | ⟨h, _⟩)
    · exact absurd h (by decide)
    · exact absurd h (by decide)
    · exact absurd h (by decide)
    · simpa [engagedHit] using h
  · intro h
    refine Or.inr (Or.inr (Or.inr ⟨?_, rfl⟩))
    simpa [engagedHit] using h

/-- C5: the exact message "buy this design" triggers both the
custom-work-lead action (type `capture_vip_lead`, priority `high`) and
the purchase-intent action (type `create_draft_order`, priority
`medium`); the output is exactly this pair — the keyword families match
independently, with no ranking or deduplication across categories. -/
theorem C5_buy_this_design_dual_match :
    detect_intent_and_actions "buy this design" "" =
      [vipLeadAction, draftOrderAction] ∧
    vipLeadAction ∈ detect_intent_and_actions "buy this design" "" ∧
    draftOrderAction ∈ detect_intent_and_actions "buy this design" "" ∧
    vipLeadAction.type = "capture_vip_lead" ∧
    vipLeadAction.priority = "high" ∧
    draftOrderAction.type = "create_draft_order" ∧
    draftOrderAction.priority = "medium" := by
  decide

/-- C7: on an action of type `create_draft_order` (purchase-intent), the
Action Executor delegates to the order-creation collaborator and returns
that call's result, for every customer-data input, writing no lead rows
itself. -/
theorem C7_purchase_intent_delegates (store_id : Nat)
    (dbInsert : Except String Nat)
    (create_draft_order : CreateDraftOrder) (action : IntentAction)
    (customer_data : CustomerData) (h : action.type = "create_draft_order") :
    execute_action store_id dbInsert create_draft_order action customer_data =
      (Except.ok (create_draft_order customer_data), []) := by
  simp [execute_action, h]

/-- Witness for C7 at the tagger's purchase-intent action. -/
theorem C7_purchase_intent_delegates_witness :
    execute_action 1 (Except.ok 1) trivialCollab draftOrderAction
        { email := none, name := none, message := "buy" } =
      (Except.ok (trivialCollab { email := none, name := none, message := "buy" }),
       []) :=
  C7_purchase_intent_delegates 1 (Except.ok 1) trivialCollab draftOrderAction
    { email := none, name := none, message := "buy" } rfl

/-- C8 counterexample: when the knowledge-base query raises, the context
loader does not return a prompt from an empty context — it propagates
the failure. -/
theorem C8_counterexample :
    load_store_context (Except.error "kb query failed") =
      Except.error "kb query failed" ∧
    (load_store_context (Except.error "kb query failed")).isOk = false :=
  ⟨rfl, rfl⟩

/-- C8 amended: a failing document lookup propagates out of
`load_store_context` unhandled (blocking the conversation); the empty
context block arises only when the lookup succeeds with no documents,
and a valid context is produced only on a successful lookup. -/
theorem C8_lookup_failure_propagates (e : String) (docs : List KnowledgeDoc) :
    load_store_context (Except.error e) = Except.error e ∧
    load_store_context (Except.ok []) = Except.ok "" ∧
    (load_store_context (Except.ok docs)).isOk = true :=
  ⟨rfl, rfl, rfl⟩

/-- C9 counterexample: with a generated response in hand and a failing
`chat_sessions` insert, the endpoint answers with the propagated
exception — the generated response is not returned to the caller. -/
theorem C9_counterexample :
    (chat_with_kilo 1 (Except.ok []) (Except.ok "Locked in!")
        (Except.error "chat_sessions insert failed") (Except.ok 1) trivialCollab
        "hello" "s1" { email := none, name := none, message := "hello" }).1 =
      EndpointOutcome.serverError "chat_sessions insert failed" ∧
    ((chat_with_kilo 1 (Except.ok []) (Except.ok "Locked in!")
        (Except.error "chat_sessions insert failed") (Except.ok 1) trivialCollab
        "hello" "s1"
        { email := none, name := none, message := "hello" }).1).responseText =
      none ∧
    (generate_response (Except.ok "Locked in!") "hello").response =
      "Locked in!" := by
  decide

/-- C9 amended: if the `chat_sessions` insert raises after the response
was generated, the exception escapes the handler: the endpoint returns a
server error, the generated response is not delivered, and no actions
are executed or leads written. -/
theorem C9_save_failure_blocks_response (store_id : Nat)
    (docs : List KnowledgeDoc) (providerResult : Except String String)
    (e : String) (dbInsert : Except String Nat) (collab : CreateDraftOrder)
    (message session_id : String) (customer : CustomerData)
    (hmsg : message ≠ "") :
    chat_with_kilo store_id (Except.ok docs) providerResult (Except.error e)
        dbInsert collab message session_id customer =
      (EndpointOutcome.serverError e, []) := by
  simp [chat_with_kilo, hmsg, load_store_context]

/-- Witness for the amended C9 at a concrete failing write. -/
theorem C9_save_failure_blocks_response_witness :
    chat_with_kilo 1 (Except.ok []) (Except.ok "yo") (Except.error "db down")
        (Except.ok 1) trivialCollab "hi" "s1"
        { email := none, name := none, message := "hi" } =
      (EndpointOutcome.serverError "db down", []) :=
  C9_save_failure_blocks_response 1 [] (Except.ok "yo") "db down" (Except.ok 1)
    trivialCollab "hi" "s1" { email := none, name := none, message := "hi" }
    (by decide)

/-- C6 (code bug), evaluated at the failing input. The message
"website?" tags the high-priority business-lead action and the
low-priority engagement flag, and the gate selects only the former for
execution; but with the customer email present and a healthy database —
the `vip_leads` INSERT commits and `execute_query` returns its int
rowcount 1 for a non-SELECT query (main.py lines 47-50) —
`result[0][0]` at main.py line 207 subscripts that int and raises, so
the handler aborts after committing the lead row and returns no action
list at all: the low-priority action is never surfaced to the caller,
contrary to the claim, and nothing after the first executed action is
invoked. -/
theorem C6_gating_crashes_on_lead_capture :
    (generate_response (Except.ok "On it!") "website?").actions =
      [b2bLeadAction, engagedAction] ∧
    engagedAction.priority = "low" ∧
    executedActions [b2bLeadAction, engagedAction] = [b2bLeadAction] ∧
    chat_with_kilo 1 (Except.ok []) (Except.ok "On it!") (Except.ok 7)
        (Except.ok 1) trivialCollab "website?" "s1"
        { email := some "a@b.com", name := some "Al", message := "website?" } =
      (EndpointOutcome.serverError "TypeError: 'int' object is not subscriptable",
       [{ store_id := 1, email := "a@b.com", name := some "Al",
          lead_type := "b2b_bulk", intent_score := 85,
          chat_context := "website?", consent_email := true }]) := by
  decide

/-- C10: for every message the tagger's output is a sub-list of the four
canonical action dicts in their fixed order (business-lead,
custom-work-lead, purchase-intent, engagement-flag), hence at most four
actions and at most one action per action kind. -/
theorem C10_at_most_one_per_kind (message response : String) :
    (detect_intent_and_actions message response).Sublist canonicalActions ∧
    (detect_intent_and_actions message response).length ≤ 4 ∧
    ∀ t, (detect_intent_and_actions message response).countP
        (fun a => a.type == t) ≤ 1 := by
  have hs : (detect_intent_and_actions message response).Sublist canonicalActions := by
    unfold detect_intent_and_actions canonicalActions
    exact ((ite_singleton_sublist.append ite_singleton_sublist).append
      ite_singleton_sublist).append ite_singleton_sublist
  refine ⟨hs, ?_, ?_⟩
  · simpa [canonicalActions] using hs.length_le
  · intro t
    exact le_trans (hs.countP_le _) (countP_canonical_le_one t)

end Kilo
